import Mathlib

/-!
Verification of the jio-mosaic procedural mosaic engine.

This file gives a shallow embedding of the mosaic layout generator and the
pieces of the animation/scheduling code that the specification's claims are
about, and proves (or refutes) each claim against that embedding.

Main embedded code:
* `generateMosaic` (the scatter layout loop, pool selection and I-dot
  placement of the display component in src/unnamed/part_002);
* the animation timing constants and per-tile origin computation of the same
  component;
* `loadImages` / `processImage` (parallel image loading with per-image
  failure swallowing);
* the frame-callback lifecycle of the canvas engine `generateCanvasMosaic`
  (src/unnamed/part_005) and of the display component's effect cleanup;
* the deterministic grid engine `generateMosaicLayout` (src/unnamed/part_006).

Coordinates and sizes are modelled as rationals (the source uses JS doubles,
but every claim here is about exact comparisons that the doubles carry out on
values derived from the same arithmetic, so ℚ is a faithful carrier).
Randomness (`Math.random()`) is modelled as an explicit stream of draw
records supplied to the generator.
-/

namespace JioMosaic

/-- One successfully loaded source image as seen by `generateMosaic` in
src/unnamed/part_002: an opaque image reference plus the VIP flag. -/
structure LoadedImage where
  imgId : Nat
  isPresident : Bool
deriving DecidableEq, Repr, Inhabited

/-- `loadedData.filter((d) => d.isPresident)` from part_002. -/
def allPresidentData (l : List LoadedImage) : List LoadedImage :=
  l.filter (·.isPresident)

/-- `loadedData.filter((d) => !d.isPresident)` from part_002. -/
def validCommonData (l : List LoadedImage) : List LoadedImage :=
  l.filter (fun d => !d.isPresident)

/-- `allPresidentData.length > 0 ? allPresidentData[allPresidentData.length - 1]
: undefined` from part_002: the last-supplied president image, if any. -/
def presidentData (l : List LoadedImage) : Option LoadedImage :=
  (allPresidentData l).getLast?

/-- `validCommonData.length > 0 ? validCommonData : loadedData` from part_002:
the eligible pool, falling back to the full loaded set. -/
def poolData (l : List LoadedImage) : List LoadedImage :=
  if 0 < (validCommonData l).length then validCommonData l else l

/-- Letter-group tag of a placement (`'J' | 'I' | 'O' | 'DOT'`). -/
inductive TileGroup
  | J
  | I
  | O
  | DOT
deriving DecidableEq, Repr

/-- One tile placement as pushed onto `placements` in part_002.  The source
record also carries `angle` (always 0), and the thumbnail / blurred-thumbnail
canvases, which are derived per-pool-index bitmaps irrelevant to the layout
claims; `img` is the source image reference stored in the `img` field. -/
structure Placement where
  cx : ℚ
  cy : ℚ
  w : ℚ
  h : ℚ
  img : LoadedImage
  isDot : Bool
  group : TileGroup
deriving DecidableEq, Repr

/-- Environment of one generation pass of part_002: canvas size, the font
metrics measured for the JÄ±o glyphs, and the rasterized mask's alpha channel
(the source reads `maskData[(⌊cy⌋ * width + ⌊cx⌋) * 4 + 3]` out of the flat
RGBA array; we model the alpha channel directly as a function of the floored
pixel coordinates). -/
structure MosaicCfg where
  width : ℚ
  height : ℚ
  fontSize : ℚ
  centerY : ℚ
  iX : ℚ
  iWidth : ℚ
  oX : ℚ
  alpha : ℤ → ℤ → ℕ

/-- `const baseSize = fontSize / 14` from part_002. -/
def baseSize (cfg : MosaicCfg) : ℚ := cfg.fontSize / 14

/-- `const iCenterX = iX + i.width / 2` from part_002. -/
def iCenterX (cfg : MosaicCfg) : ℚ := cfg.iX + cfg.iWidth / 2

/-- `const dotRadius = fontSize * 0.1` from part_002. -/
def dotRadius (cfg : MosaicCfg) : ℚ := cfg.fontSize * (1 / 10)

/-- `const dotY = centerY - fontSize * 0.38` from part_002. -/
def dotY (cfg : MosaicCfg) : ℚ := cfg.centerY - cfg.fontSize * (38 / 100)

/-- `const targetCount = 5000` from part_002. -/
def targetCount : ℕ := 5000

/-- `const maxAttempts = 100000` from part_002. -/
def maxAttempts : ℕ := 100000

/-- The three `Math.random()` draws consumed by one iteration of the scatter
loop: the x sample, the y sample, and the size-multiplier sample.  Each is a
number in [0, 1). -/
structure Attempt where
  rx : ℚ
  ry : ℚ
  rs : ℚ

/-- Mask lookup of part_002: alpha at the pixel containing the point, i.e.
`maskData[(Math.floor(cy) * width + Math.floor(cx)) * 4 + 3]`. -/
def alphaAt (cfg : MosaicCfg) (x y : ℚ) : ℕ :=
  cfg.alpha ⌊x⌋ ⌊y⌋

/-- One existing-placement test of the collision scan in part_002:
`distSq < minDist * minDist` with `minDist = (radius + p.w / 2) * 0.7`. -/
def collidesWith (cx cy radius : ℚ) (p : Placement) : Bool :=
  let dx := cx - p.cx
  let dy := cy - p.cy
  let distSq := dx * dx + dy * dy
  let r2 := p.w / 2
  let minDist := (radius + r2) * (7 / 10)
  decide (distSq < minDist * minDist)

/-- The collision scan of part_002: linear scan over all prior accepted
placements, breaking at the first collision. -/
def anyCollision (cx cy radius : ℚ) (ps : List Placement) : Bool :=
  ps.any (collidesWith cx cy radius)

/-- Letter-group tagging of part_002: `cx < iX ? 'J' : cx < oX ? 'I' : 'O'`. -/
def groupOf (cfg : MosaicCfg) (cx : ℚ) : TileGroup :=
  if cx < cfg.iX then .J else if cx < cfg.oX then .I else .O

/-- One iteration body of the `while` loop in part_002: sample a point,
reject on mask alpha ≤ 128, compute the tile size
(`baseSize * (0.85 + Math.random() * 0.4)`), reject on collision, otherwise
push a placement whose image is `loadedImages[placements.length %
loadedImages.length]`. -/
def scatterStep (cfg : MosaicCfg) (pool : List LoadedImage)
    (ps : List Placement) (a : Attempt) : List Placement :=
  let cx := a.rx * cfg.width
  let cy := a.ry * cfg.height
  if alphaAt cfg cx cy ≤ 128 then ps
  else
    let targetSize := baseSize cfg * (85 / 100 + a.rs * (4 / 10))
    if anyCollision cx cy (targetSize / 2) ps then ps
    else
      ps ++ [{ cx := cx, cy := cy, w := targetSize, h := targetSize,
               img := pool.getD (ps.length % pool.length) default,
               isDot := false, group := groupOf cfg cx }]

/-- The `while (placements.length < targetCount && attempts < maxAttempts)`
loop of part_002.  `fuel` is the number of attempts still allowed
(`maxAttempts - attempts`); `attempts` indexes the random stream exactly as
the source's attempt counter orders its `Math.random()` calls. -/
def scatterLoopAux (cfg : MosaicCfg) (pool : List LoadedImage)
    (rand : ℕ → Attempt) : ℕ → ℕ → List Placement → List Placement
  | 0, _, ps => ps
  | fuel + 1, attempts, ps =>
    if ps.length < targetCount then
      scatterLoopAux cfg pool rand fuel (attempts + 1)
        (scatterStep cfg pool ps (rand attempts))
    else ps

/-- Number of loop iterations the scatter loop actually performs, with the
same control structure as `scatterLoopAux`. -/
def scatterIterations (cfg : MosaicCfg) (pool : List LoadedImage)
    (rand : ℕ → Attempt) : ℕ → ℕ → List Placement → ℕ
  | 0, _, _ => 0
  | fuel + 1, attempts, ps =>
    if ps.length < targetCount then
      scatterIterations cfg pool rand fuel (attempts + 1)
        (scatterStep cfg pool ps (rand attempts)) + 1
    else 0

/-- The I-dot placement pushed after the scatter loop in part_002:
`dotImage = presidentData ? presidentData.img : loadedImages[0]`, at the
precomputed anchor `(iCenterX, dotY)` with diameter `dotRadius * 2`. -/
def dotPlacement (cfg : MosaicCfg) (loadedData : List LoadedImage) : Placement :=
  let pool := poolData loadedData
  let dotImage :=
    match presidentData loadedData with
    | some d => d
    | none => pool.getD 0 default
  { cx := iCenterX cfg, cy := dotY cfg,
    w := dotRadius cfg * 2, h := dotRadius cfg * 2,
    img := dotImage, isDot := true, group := .DOT }

/-- The layout part of `generateMosaic` in part_002: select the pool, run the
bounded rejection-sampling loop starting from an empty placement list and
attempt counter 0, then append the single I-dot placement. -/
def generateMosaic (cfg : MosaicCfg) (rand : ℕ → Attempt)
    (loadedData : List LoadedImage) : List Placement :=
  let pool := poolData loadedData
  scatterLoopAux cfg pool rand maxAttempts 0 [] ++ [dotPlacement cfg loadedData]

/-! Animation timing constants of part_002 (all in milliseconds). -/

/-- `const DELAY_BETWEEN_LETTERS = 600` from part_002. -/
def delayBetweenLetters : ℕ := 600

/-- `const LETTER_ANIM_DURATION = 1500` from part_002. -/
def letterAnimDuration : ℕ := 1500

/-- `const J_START = 300` from part_002. -/
def jStart : ℕ := 300

/-- `const I_START = J_START + LETTER_ANIM_DURATION + DELAY_BETWEEN_LETTERS`. -/
def iStart : ℕ := jStart + letterAnimDuration + delayBetweenLetters

/-- `const O_START = I_START + LETTER_ANIM_DURATION + DELAY_BETWEEN_LETTERS`. -/
def oStart : ℕ := iStart + letterAnimDuration + delayBetweenLetters

/-- `const DOT_START = O_START + LETTER_ANIM_DURATION + DELAY_BETWEEN_LETTERS`. -/
def dotStart : ℕ := oStart + letterAnimDuration + delayBetweenLetters

/-- `const DOT_DURATION = 1200` from part_002. -/
def dotAnimDuration : ℕ := 1200

/-- `const TOTAL_DURATION = DOT_START + DOT_DURATION + 1000` from part_002
(the trailing `1000` is the post-dot buffer). -/
def totalDuration : ℕ := dotStart + dotAnimDuration + 1000

/-! Per-tile animation origin, from the `animPlacements` construction of
part_002. -/

/-- `const dist = 300 + Math.random() * 500` from part_002, with `r` the
`Math.random()` draw in [0, 1). -/
def scatterDistOf (r : ℚ) : ℚ := 300 + r * 500

/-- Scatter origin of a non-dot tile in part_002:
`sx = p.cx + Math.cos(angle) * dist`, `sy = p.cy + Math.sin(angle) * dist`.
The cosine and sine of the random angle are passed in as `c` and `s`
(constrained by `c * c + s * s = 1` where a claim needs it). -/
def scatterOrigin (cx cy c s r : ℚ) : ℚ × ℚ :=
  (cx + c * scatterDistOf r, cy + s * scatterDistOf r)

/-- Dot origin of part_002: `sx = p.cx; sy = p.cy - 600` (a vertical drop). -/
def dotOrigin (cx cy : ℚ) : ℚ × ℚ := (cx, cy - 600)

/-! Image loading, from the `loadImages` closure of part_002. -/

/-- One image fetch as the DOM delivers it: the record handed to
`processImage` plus whether `onload` (rather than `onerror`) fires. -/
structure ImageLoadEvent where
  img : LoadedImage
  succeeds : Bool

/-- `processImage` of part_002: the promise resolves with the loaded record
on `onload` and resolves with `null` on `onerror` — it never rejects, so a
single failure cannot reject the `Promise.all` batch. -/
def processImage (e : ImageLoadEvent) : Option LoadedImage :=
  if e.succeeds then some e.img else none

/-- Outcome of one generation pass as driven by `loadImages` in part_002:
either `generateMosaic` ran on the surviving pool, or the pass ended in the
not-generating state (`setIsGenerating(false)`) with no placements created
and no animation frame requested. -/
inductive GenerationResult
  | generated (ps : List Placement)
  | notGenerating
deriving DecidableEq

/-- `loadImages` of part_002: fire all loads (`Promise.all`, modelled by the
event list), filter out the `null` results, and call `generateMosaic` only
when at least one image survived. -/
def loadImages (cfg : MosaicCfg) (rand : ℕ → Attempt)
    (evs : List ImageLoadEvent) : GenerationResult :=
  let results := evs.map processImage
  let validImages := results.filterMap id
  if 0 < validImages.length then .generated (generateMosaic cfg rand validImages)
  else .notGenerating

/-! Frame-callback lifecycle.  Two variants exist in the source: the canvas
engine `generateCanvasMosaic` (src/unnamed/part_005) guards every callback
with `if (isDestroyed) return` and cancels the pending ids in `destroy`,
while the display component of part_002 starts a `requestAnimationFrame`
chain whose callback consults no cancellation flag, and whose effect cleanup
only pauses the audio. -/

/-- Result of delivering one frame callback: whether any draw call was
performed, and whether a further animation frame was requested. -/
structure FrameResult where
  draws : Bool
  requestsNext : Bool
deriving DecidableEq, Repr

/-- Lifecycle state of a `generateCanvasMosaic` controller (part_005). -/
structure CanvasController where
  isDestroyed : Bool
  activeRafId : Option ℕ
  activeTimeoutId : Option ℕ
deriving DecidableEq, Repr

/-- `destroy` of part_005: set `isDestroyed`, cancel the pending animation
frame and the pending timeout. -/
def destroyController (_c : CanvasController) : CanvasController :=
  { isDestroyed := true, activeRafId := none, activeTimeoutId := none }

/-- `const INTRO_DURATION = 800` from part_005. -/
def introDuration : ℚ := 800

/-- `const FILL_DURATION = 2800` from part_005. -/
def fillDuration : ℚ := 2800

/-- The `frame` callback of part_005.  Its first statement is
`if (isDestroyed) return;` — no draw, no re-request.  Otherwise it draws the
intro or fill phase, re-requesting a frame while the phase is unfinished. -/
def canvasFrame (c : CanvasController) (totalElapsed : ℚ) : FrameResult :=
  if c.isDestroyed then { draws := false, requestsNext := false }
  else if totalElapsed < introDuration then { draws := true, requestsNext := true }
  else { draws := true,
         requestsNext := decide ((totalElapsed - introDuration) / fillDuration < 1) }

/-- Teardown-relevant state of the part_002 display component's generation
effect: the `isMounted` flag of the effect closure and whether the audio
element is playing.  The component stores no animation-frame id. -/
structure MosaicEffectState where
  isMounted : Bool
  audioPlaying : Bool
deriving DecidableEq, Repr

/-- The cleanup function returned by the generation effect of part_002: it
sets `isMounted = false` and pauses the audio.  It performs no
`cancelAnimationFrame` — no raf id was ever stored. -/
def effectCleanup (_s : MosaicEffectState) : MosaicEffectState :=
  { isMounted := false, audioPlaying := false }

/-- The `animate` callback of part_002, as a function of the component state
and the frame timestamp.  The body clears the canvas, draws the title and all
started placements, and re-requests a frame while
`elapsed < TOTAL_DURATION`; it never reads `isMounted` or any cancellation
flag, which is why the state argument is ignored. -/
def animateFrame (_s : MosaicEffectState) (startTime t : ℚ) : FrameResult :=
  { draws := true, requestsNext := decide (t - startTime < (totalDuration : ℚ)) }

/-! The deterministic grid engine of src/unnamed/part_006. -/

/-- `region` tag of the grid engine: `'J' | 'I_BODY' | 'I_DOT' | 'O'`. -/
inductive Region
  | J
  | IBody
  | IDot
  | O
deriving DecidableEq, Repr

/-- One grid coordinate with its region tag (part_006's `Coordinate`). -/
structure Coordinate where
  x : ℤ
  y : ℤ
  region : Region
deriving DecidableEq, Repr

/-- Input image record of part_006 (`MosaicImage`): opaque url plus the
president flag. -/
structure MosaicImage where
  url : Nat
  isPresident : Bool
deriving DecidableEq, Repr, Inhabited

/-- Output placement record of part_006 (`MosaicPlacement`). -/
structure MosaicPlacement where
  x : ℤ
  y : ℤ
  size : ℤ
  imageUrl : Nat
  region : Region
deriving DecidableEq, Repr

/-- Integer range [lo, hi], both ends included, matching the source's
`for (let v = lo; v <= hi; v++)` loops. -/
def intRange (lo hi : ℤ) : List ℤ :=
  (List.range (hi + 1 - lo).toNat).map (fun n => lo + n)

/-- `generateGrid` of part_006, loop by loop.  The O test
`Math.sqrt((x-12)^2 + (y-6)^2) <= 3.5` is written in the equivalent exact
integer form `4 * ((x-12)^2 + (y-6)^2) ≤ 49`. -/
def generateGrid : List Coordinate :=
  ((intRange 2 8).flatMap fun y =>
    (intRange 2 3).map fun x => { x := x, y := y, region := Region.J }) ++
  ((intRange 8 9).flatMap fun y =>
    (intRange 0 3).filterMap fun x =>
      if x < 2 ∧ y < 8 then none
      else some { x := x, y := y, region := Region.J }) ++
  ((intRange 6 7).flatMap fun x =>
    (intRange 0 1).map fun y => { x := x, y := y, region := Region.IDot }) ++
  ((intRange 6 7).flatMap fun x =>
    (intRange 3 9).map fun y => { x := x, y := y, region := Region.IBody }) ++
  ((intRange 9 15).flatMap fun x =>
    (intRange 2 10).filterMap fun y =>
      if 4 * ((x - 12) ^ 2 + (y - 6) ^ 2) ≤ 49 then
        some { x := x, y := y, region := Region.O }
      else none)

/-- `const MOSAIC_GRID = generateGrid()` from part_006. -/
def mosaicGrid : List Coordinate := generateGrid

/-- The slot-filling `forEach` of part_006: walk the slots, cycling through
`imgs` by slot index (`imgs[index % imgs.length]`).  The source hardcodes
`region: 'I_DOT'` in the dot branch, which coincides with `slot.region`
because the dot branch only ever receives slots filtered to that region. -/
def assignSlots (imgs : List MosaicImage) :
    List Coordinate → ℕ → List MosaicPlacement
  | [], _ => []
  | slot :: rest, idx =>
    { x := slot.x, y := slot.y, size := 1,
      imageUrl := (imgs.getD (idx % imgs.length) default).url,
      region := slot.region } :: assignSlots imgs rest (idx + 1)

/-- `generateMosaicLayout` of part_006: president images fill only the
`I_DOT` slots (skipped entirely when there is no president image), regular
images fill only the remaining slots (skipped entirely when there is no
regular image; the source comment explicitly forbids falling back to
president images there). -/
def generateMosaicLayout (images : List MosaicImage) : List MosaicPlacement :=
  let presidentImages := images.filter (·.isPresident)
  let regularImages := images.filter (fun i => !i.isPresident)
  let dotSlots := mosaicGrid.filter (fun p => p.region = Region.IDot)
  let otherSlots := mosaicGrid.filter (fun p => p.region ≠ Region.IDot)
  let dotPlacements :=
    if 0 < presidentImages.length then assignSlots presidentImages dotSlots 0
    else []
  let otherPlacements :=
    if 0 < regularImages.length then assignSlots regularImages otherSlots 0
    else []
  dotPlacements ++ otherPlacements

/-! Helper lemmas about the scatter loop. -/

/-- Anything in the output of one loop iteration was already placed, or is a
freshly accepted tile: non-dot, sampled strictly inside the mask, imaged
round-robin from the pool, and collision-free against all prior tiles. -/
lemma mem_scatterStep {cfg : MosaicCfg} {pool : List LoadedImage}
    {ps : List Placement} {a : Attempt} {p : Placement}
    (hp : p ∈ scatterStep cfg pool ps a) :
    p ∈ ps ∨
      (p.isDot = false ∧ 128 < alphaAt cfg p.cx p.cy ∧
        p.img = pool.getD (ps.length % pool.length) default ∧
        ∀ q ∈ ps, collidesWith p.cx p.cy (p.w / 2) q = false) := by
  simp only [scatterStep] at hp
  split at hp
  · exact Or.inl hp
  next halpha =>
    split at hp
    · exact Or.inl hp
    next hcol =>
      rcases List.mem_append.mp hp with h | h
      · exact Or.inl h
      · simp only [List.mem_singleton] at h
        subst h
        refine Or.inr ⟨rfl, not_le.mp halpha, rfl, ?_⟩
        intro q hq
        simp only [anyCollision, List.any_eq_true, not_exists, not_and,
          Bool.not_eq_true] at hcol
        exact hcol q hq

/-- Generic invariant-preservation principle for the bounded scatter loop. -/
lemma scatterLoopAux_invariant {cfg : MosaicCfg} {pool : List LoadedImage}
    {rand : ℕ → Attempt} {P : List Placement → Prop}
    (hstep : ∀ ps a, P ps → P (scatterStep cfg pool ps a)) :
    ∀ fuel attempts ps, P ps →
      P (scatterLoopAux cfg pool rand fuel attempts ps) := by
  intro fuel
  induction fuel with
  | zero => intro _ ps h; exact h
  | succ n ih =>
    intro attempts ps h
    simp only [scatterLoopAux]
    split
    · exact ih _ _ (hstep _ _ h)
    · exact h

/-- Soundness predicate of one scatter placement: non-dot, centered on a
mask pixel whose alpha exceeds the threshold, and imaged from the pool. -/
def scatterOk (cfg : MosaicCfg) (pool : List LoadedImage) (p : Placement) : Prop :=
  p.isDot = false ∧ 128 < alphaAt cfg p.cx p.cy ∧ (pool ≠ [] → p.img ∈ pool)

lemma scatterStep_ok {cfg : MosaicCfg} {pool : List LoadedImage}
    {ps : List Placement} {a : Attempt}
    (hps : ∀ p ∈ ps, scatterOk cfg pool p) :
    ∀ p ∈ scatterStep cfg pool ps a, scatterOk cfg pool p := by
  intro p hp
  rcases mem_scatterStep hp with h | ⟨hdot, halpha, himg, _⟩
  · exact hps p h
  · refine ⟨hdot, halpha, fun hne => ?_⟩
    have hlen : ps.length % pool.length < pool.length :=
      Nat.mod_lt _ (List.length_pos.mpr hne)
    rw [himg, List.getD_eq_getElem _ _ hlen]
    exact List.getElem_mem _

lemma scatterLoopAux_ok {cfg : MosaicCfg} {pool : List LoadedImage}
    {rand : ℕ → Attempt} (fuel attempts : ℕ) :
    ∀ p ∈ scatterLoopAux cfg pool rand fuel attempts [], scatterOk cfg pool p := by
  refine scatterLoopAux_invariant
    (P := fun ps => ∀ p ∈ ps, scatterOk cfg pool p)
    (fun _ _ h => scatterStep_ok h) fuel attempts [] ?_
  intro p hp
  cases hp

/-- Separation required by the collision filter, stated between two accepted
placements: squared center distance at least the square of
`packingFactor (= 0.7)` times the sum of the two half-widths.  (Both sides
are nonnegative, so this squared form is equivalent to the distance form.) -/
def separated (p q : Placement) : Prop :=
  (7 / 10 : ℚ) * (p.w / 2 + q.w / 2) * ((7 / 10 : ℚ) * (p.w / 2 + q.w / 2)) ≤
    (p.cx - q.cx) * (p.cx - q.cx) + (p.cy - q.cy) * (p.cy - q.cy)

lemma scatterStep_pairwise {cfg : MosaicCfg} {pool : List LoadedImage}
    {ps : List Placement} {a : Attempt}
    (h : ps.Pairwise separated) :
    (scatterStep cfg pool ps a).Pairwise separated := by
  simp only [scatterStep]
  split
  · exact h
  · split
    · exact h
    next hcol =>
      rw [List.pairwise_append]
      refine ⟨h, List.pairwise_singleton _ _, ?_⟩
      intro q hq r hr
      simp only [List.mem_singleton] at hr
      subst hr
      simp only [anyCollision, List.any_eq_true, not_exists, not_and,
        Bool.not_eq_true] at hcol
      have hq2 := hcol q hq
      simp only [collidesWith, decide_eq_false_iff_not, not_lt] at hq2
      unfold separated
      nlinarith [hq2]

lemma scatterLoopAux_pairwise {cfg : MosaicCfg} {pool : List LoadedImage}
    {rand : ℕ → Attempt} (fuel attempts : ℕ) :
    (scatterLoopAux cfg pool rand fuel attempts []).Pairwise separated :=
  scatterLoopAux_invariant (fun _ _ => scatterStep_pairwise) fuel attempts []
    (List.Pairwise.nil)

lemma scatterStep_length {cfg : MosaicCfg} {pool : List LoadedImage}
    {ps : List Placement} {a : Attempt} :
    (scatterStep cfg pool ps a).length ≤ ps.length + 1 := by
  simp only [scatterStep]
  split
  · omega
  · split
    · omega
    · simp

lemma scatterLoopAux_length {cfg : MosaicCfg} {pool : List LoadedImage}
    {rand : ℕ → Attempt} :
    ∀ fuel attempts ps, ps.length ≤ targetCount →
      (scatterLoopAux cfg pool rand fuel attempts ps).length ≤ targetCount := by
  intro fuel
  induction fuel with
  | zero => intro _ ps h; exact h
  | succ n ih =>
    intro attempts ps h
    simp only [scatterLoopAux]
    split
    next hlt =>
      exact ih _ _ (le_trans scatterStep_length (by omega))
    · exact h

lemma scatterIterations_le {cfg : MosaicCfg} {pool : List LoadedImage}
    {rand : ℕ → Attempt} :
    ∀ fuel attempts ps, scatterIterations cfg pool rand fuel attempts ps ≤ fuel := by
  intro fuel
  induction fuel with
  | zero => intro _ _; simp [scatterIterations]
  | succ n ih =>
    intro attempts ps
    simp only [scatterIterations]
    split
    · exact Nat.succ_le_succ (ih _ _)
    · omega

/-- When every remaining iteration rejects its sample, the loop leaves its
placement list unchanged. -/
lemma scatterLoopAux_fix {cfg : MosaicCfg} {pool : List LoadedImage}
    {rand : ℕ → Attempt} {ps : List Placement}
    (h : ∀ n, scatterStep cfg pool ps (rand n) = ps) :
    ∀ fuel attempts, scatterLoopAux cfg pool rand fuel attempts ps = ps := by
  intro fuel
  induction fuel with
  | zero => intro _; rfl
  | succ n ih =>
    intro attempts
    simp only [scatterLoopAux]
    split
    · rw [h attempts]; exact ih _
    · rfl

/-- A run in which the first sample is accepted and every further sample is
rejected produces exactly that one scatter placement. -/
lemma scatterLoopAux_one {cfg : MosaicCfg} {pool : List LoadedImage}
    {rand : ℕ → Attempt} {p : Placement}
    (h1 : scatterStep cfg pool [] (rand 0) = [p])
    (h2 : ∀ n, scatterStep cfg pool [p] (rand n) = [p]) :
    ∀ fuel, scatterLoopAux cfg pool rand (fuel + 1) 0 [] = [p] := by
  intro fuel
  simp only [scatterLoopAux]
  rw [if_pos (by decide : ([] : List Placement).length < targetCount), h1]
  exact scatterLoopAux_fix h2 fuel 1

lemma poolData_ne_nil {l : List LoadedImage} (hl : l ≠ []) : poolData l ≠ [] := by
  unfold poolData
  split
  next h => exact List.length_pos.mp h
  · exact hl

/-! Concrete pass environment used by the claim witnesses: a 100×100 canvas,
a fully opaque mask, one non-president image, and a constant random stream
that always samples the canvas center.  The first attempt is accepted and
every further attempt collides with it, so the scatter loop produces exactly
one placement. -/

def cfgW : MosaicCfg :=
  { width := 100, height := 100, fontSize := 14, centerY := 60,
    iX := 40, iWidth := 20, oX := 70, alpha := fun _ _ => 255 }

def randW : ℕ → Attempt := fun _ => { rx := 1 / 2, ry := 1 / 2, rs := 0 }

def imgW : LoadedImage := { imgId := 0, isPresident := false }

def lW : List LoadedImage := [imgW]

def placementW : Placement :=
  { cx := 50, cy := 50, w := 17 / 20, h := 17 / 20,
    img := imgW, isDot := false, group := TileGroup.I }

lemma poolData_lW : poolData lW = [imgW] := by
  simp [poolData, validCommonData, lW, imgW]

lemma scatterStep_accept :
    scatterStep cfgW (poolData lW) [] (randW 0) = [placementW] := by
  rw [poolData_lW]
  simp only [scatterStep, alphaAt, anyCollision, baseSize, groupOf, cfgW, randW,
    placementW, imgW]
  norm_num

lemma scatterStep_reject :
    ∀ n, scatterStep cfgW (poolData lW) [placementW] (randW n) = [placementW] := by
  intro n
  rw [poolData_lW]
  show scatterStep cfgW [imgW] [placementW] { rx := 1 / 2, ry := 1 / 2, rs := 0 }
      = [placementW]
  simp only [scatterStep, alphaAt, anyCollision, baseSize, groupOf,
    cfgW, placementW, imgW]
  norm_num
  simp only [collidesWith, placementW]
  norm_num

lemma generateMosaic_W :
    generateMosaic cfgW randW lW = [placementW, dotPlacement cfgW lW] := by
  simp only [generateMosaic]
  have e : maxAttempts = 99999 + 1 := rfl
  rw [e, scatterLoopAux_one scatterStep_accept scatterStep_reject 99999]
  rfl

/-- C1: every generation pass over a non-empty loaded image set creates
exactly one dot placement, and its source image is the last-supplied
president (VIP) image when any president image exists, else the first image
of the eligible pool. -/
theorem generateMosaic_one_dot (cfg : MosaicCfg) (rand : ℕ → Attempt)
    (l : List LoadedImage) (hl : l ≠ []) :
    ((generateMosaic cfg rand l).filter (·.isDot)).length = 1 ∧
    ∀ p ∈ generateMosaic cfg rand l, p.isDot = true →
      ((allPresidentData l ≠ [] → some p.img = (allPresidentData l).getLast?) ∧
       (allPresidentData l = [] → some p.img = (poolData l).head?)) := by
  constructor
  · simp only [generateMosaic, List.filter_append]
    have h1 : (scatterLoopAux cfg (poolData l) rand maxAttempts 0 []).filter
        (·.isDot) = [] := by
      apply List.filter_eq_nil_iff.mpr
      intro p hp
      have hdot := (scatterLoopAux_ok maxAttempts 0 p hp).1
      simp [hdot]
    rw [h1]
    simp [dotPlacement]
  · intro p hp hdot
    simp only [generateMosaic, List.mem_append] at hp
    rcases hp with hp | hp
    · have h := (scatterLoopAux_ok maxAttempts 0 p hp).1
      rw [h] at hdot
      cases hdot
    · simp only [List.mem_singleton] at hp
      subst hp
      constructor
      · intro hpres
        cases hgl : (allPresidentData l).getLast? with
        | none =>
          exact absurd (List.getLast?_eq_none_iff.mp hgl) hpres
        | some d =>
          simp [dotPlacement, presidentData, hgl]
      · intro hpres
        have hnone : presidentData l = none := by
          simp [presidentData, hpres]
        have hpool := poolData_ne_nil hl
        cases hp : poolData l with
        | nil => exact absurd hp hpool
        | cons a t =>
          simp [dotPlacement, hnone, hp]

/-- C1 witness: the concrete one-image pass. -/
theorem generateMosaic_one_dot_witness :
    lW ≠ [] ∧
    ((generateMosaic cfgW randW lW).filter (·.isDot)).length = 1 ∧
    ∀ p ∈ generateMosaic cfgW randW lW, p.isDot = true →
      ((allPresidentData lW ≠ [] → some p.img = (allPresidentData lW).getLast?) ∧
       (allPresidentData lW = [] → some p.img = (poolData lW).head?)) :=
  ⟨by decide, (generateMosaic_one_dot cfgW randW lW (by decide)).1,
    (generateMosaic_one_dot cfgW randW lW (by decide)).2⟩

/-- C2: when at least one non-president image was loaded, the eligible pool
is exactly the non-president images and no non-dot placement references a
president image; when only president images were loaded, the pool falls back
to the full loaded set. -/
theorem generateMosaic_pool_exclusivity (cfg : MosaicCfg) (rand : ℕ → Attempt)
    (l : List LoadedImage) :
    (validCommonData l ≠ [] →
      poolData l = l.filter (fun d => !d.isPresident) ∧
      ∀ p ∈ generateMosaic cfg rand l, p.isDot = false →
        p.img.isPresident = false) ∧
    (validCommonData l = [] → poolData l = l) := by
  constructor
  · intro h
    have hpool : poolData l = validCommonData l := by
      unfold poolData
      rw [if_pos (List.length_pos.mpr h)]
    refine ⟨hpool, ?_⟩
    intro p hp hdot
    simp only [generateMosaic, List.mem_append] at hp
    rcases hp with hp | hp
    · have hok := scatterLoopAux_ok maxAttempts 0 p hp
      have himg : p.img ∈ poolData l := hok.2.2 (by rw [hpool]; exact h)
      rw [hpool, validCommonData] at himg
      have hmem := List.of_mem_filter himg
      simpa using hmem
    · simp only [List.mem_singleton] at hp
      subst hp
      simp [dotPlacement] at hdot
  · intro h
    unfold poolData
    rw [if_neg]
    simp [h]

/-- C2 witness: a mixed list exercises the exclusive pool, a president-only
list exercises the documented fallback. -/
theorem generateMosaic_pool_exclusivity_witness :
    (validCommonData lW ≠ [] ∧
      poolData lW = lW.filter (fun d => !d.isPresident)) ∧
    (validCommonData [{ imgId := 1, isPresident := true }] = [] ∧
      poolData [{ imgId := 1, isPresident := true }] =
        [{ imgId := 1, isPresident := true }]) :=
  ⟨⟨by decide, ((generateMosaic_pool_exclusivity cfgW randW lW).1 (by decide)).1⟩,
   ⟨by decide,
    (generateMosaic_pool_exclusivity cfgW randW
      [{ imgId := 1, isPresident := true }]).2 (by decide)⟩⟩

/-- C3: the mask alpha at the center of every non-dot placement exceeds the
threshold of 128. -/
theorem generateMosaic_mask_threshold (cfg : MosaicCfg) (rand : ℕ → Attempt)
    (l : List LoadedImage) :
    ∀ p ∈ generateMosaic cfg rand l, p.isDot = false →
      128 < alphaAt cfg p.cx p.cy := by
  intro p hp hdot
  simp only [generateMosaic, List.mem_append] at hp
  rcases hp with hp | hp
  · exact (scatterLoopAux_ok maxAttempts 0 p hp).2.1
  · simp only [List.mem_singleton] at hp
    subst hp
    simp [dotPlacement] at hdot

/-- C3 witness: the concretely accepted placement of the one-image pass. -/
theorem generateMosaic_mask_threshold_witness :
    placementW ∈ generateMosaic cfgW randW lW ∧
    placementW.isDot = false ∧
    128 < alphaAt cfgW placementW.cx placementW.cy :=
  ⟨by rw [generateMosaic_W]; exact List.mem_cons_self _ _, rfl,
    generateMosaic_mask_threshold cfgW randW lW placementW
      (by rw [generateMosaic_W]; exact List.mem_cons_self _ _) rfl⟩

/-- C4: any two distinct non-dot placements of one pass keep a center
distance of at least the packing factor 0.7 times the sum of their
half-widths (stated in squared form; both sides are nonnegative). -/
theorem generateMosaic_separation (cfg : MosaicCfg) (rand : ℕ → Attempt)
    (l : List LoadedImage) :
    (generateMosaic cfg rand l).Pairwise
      (fun p q => p.isDot = false → q.isDot = false → separated p q) := by
  simp only [generateMosaic]
  rw [List.pairwise_append]
  refine ⟨(scatterLoopAux_pairwise maxAttempts 0).imp (fun h _ _ => h),
    List.pairwise_singleton _ _, ?_⟩
  intro p hp q hq
  simp only [List.mem_singleton] at hq
  subst hq
  intro _ hdot
  exfalso
  simp [dotPlacement] at hdot

/-- C7: the rejection-sampling loop performs at most `maxAttempts`
iterations, accepts at most `targetCount` placements, and returns the
current (possibly sparser-than-target) placement set once attempts run
out.  Totality of `scatterLoopAux` itself is established by its
definition. -/
theorem scatter_loop_bounded (cfg : MosaicCfg) (pool : List LoadedImage)
    (rand : ℕ → Attempt) :
    scatterIterations cfg pool rand maxAttempts 0 [] ≤ maxAttempts ∧
    (scatterLoopAux cfg pool rand maxAttempts 0 []).length ≤ targetCount ∧
    ∀ attempts ps, scatterLoopAux cfg pool rand 0 attempts ps = ps :=
  ⟨scatterIterations_le _ _ _, scatterLoopAux_length _ _ _ (by simp),
   fun _ _ => rfl⟩

/-- C5 counterexample: the claimed closed form
`3 × (groupDuration + interGroupPause) + dotDuration + trailingBuffer`
equals 8500 ms, but the source's total is 8800 ms — the first group does not
start at 0 but at `J_START = 300`. -/
theorem totalDuration_ne_claimed_sum :
    totalDuration = 8800 ∧
    3 * (letterAnimDuration + delayBetweenLetters) + dotAnimDuration + 1000 = 8500 ∧
    totalDuration ≠
      3 * (letterAnimDuration + delayBetweenLetters) + dotAnimDuration + 1000 := by
  refine ⟨rfl, rfl, ?_⟩
  decide

/-- C5 amended: the total animation duration is the closed-form sum of the
initial offset `J_START` plus `3 × (groupDuration + interGroupPause) +
dotDuration + trailingBuffer`; being a constant, it is independent of the
tile count. -/
theorem totalDuration_closed_form :
    totalDuration =
      jStart + 3 * (letterAnimDuration + delayBetweenLetters)
        + dotAnimDuration + 1000 := by
  decide

/-- C6 counterexample: with the legal random draw r = 1/2 (and angle 0), the
scatter origin lies at distance 550 from the target — outside the claimed
interval [300, 500].  The source draws `300 + Math.random() * 500`, so the
upper bound is 800, not 500. -/
theorem scatterOrigin_distance_counterexample :
    (1 : ℚ) * 1 + 0 * 0 = 1 ∧ (0 : ℚ) ≤ 1 / 2 ∧ (1 / 2 : ℚ) < 1 ∧
    ((scatterOrigin 0 0 1 0 (1 / 2)).1 - 0) * ((scatterOrigin 0 0 1 0 (1 / 2)).1 - 0) +
      ((scatterOrigin 0 0 1 0 (1 / 2)).2 - 0) * ((scatterOrigin 0 0 1 0 (1 / 2)).2 - 0) =
      550 * 550 ∧
    ¬(550 * 550 ≤ (500 : ℚ) * 500) := by
  norm_num [scatterOrigin, scatterDistOf]

/-- C6 amended: each non-dot origin lies at distance `300 + r·500 ∈
[300, 800)` from its target at the drawn angle (given as its cosine `c` and
sine `s`), while the dot's origin is directly above its target (same x,
strictly smaller y).  Distances are stated in squared form. -/
theorem scatterOrigin_distance (cx cy c s r : ℚ)
    (hcs : c * c + s * s = 1) (h0 : 0 ≤ r) (h1 : r < 1) :
    ((scatterOrigin cx cy c s r).1 - cx) * ((scatterOrigin cx cy c s r).1 - cx) +
      ((scatterOrigin cx cy c s r).2 - cy) * ((scatterOrigin cx cy c s r).2 - cy) =
      scatterDistOf r * scatterDistOf r ∧
    300 ≤ scatterDistOf r ∧ scatterDistOf r < 800 ∧
    (dotOrigin cx cy).1 = cx ∧ (dotOrigin cx cy).2 < cy := by
  refine ⟨?_, ?_, ?_, rfl, ?_⟩
  · simp only [scatterOrigin]
    have e1 : cx + c * scatterDistOf r - cx = c * scatterDistOf r := by ring
    have e2 : cy + s * scatterDistOf r - cy = s * scatterDistOf r := by ring
    rw [e1, e2]
    calc c * scatterDistOf r * (c * scatterDistOf r)
          + s * scatterDistOf r * (s * scatterDistOf r)
        = (c * c + s * s) * (scatterDistOf r * scatterDistOf r) := by ring
      _ = scatterDistOf r * scatterDistOf r := by rw [hcs, one_mul]
  · simp only [scatterDistOf]; linarith
  · simp only [scatterDistOf]; linarith
  · simp only [dotOrigin]; linarith

/-- C6 witness: the amended statement instantiated at the origin draw of the
counterexample. -/
theorem scatterOrigin_distance_witness :
    ((1 : ℚ) * 1 + 0 * 0 = 1 ∧ (0 : ℚ) ≤ 1 / 2 ∧ (1 / 2 : ℚ) < 1) ∧
    (((scatterOrigin 0 0 1 0 (1 / 2)).1 - 0) * ((scatterOrigin 0 0 1 0 (1 / 2)).1 - 0) +
        ((scatterOrigin 0 0 1 0 (1 / 2)).2 - 0) * ((scatterOrigin 0 0 1 0 (1 / 2)).2 - 0) =
        scatterDistOf (1 / 2) * scatterDistOf (1 / 2) ∧
      300 ≤ scatterDistOf (1 / 2) ∧ scatterDistOf (1 / 2) < 800 ∧
      (dotOrigin 0 0).1 = 0 ∧ (dotOrigin 0 0).2 < 0) :=
  ⟨⟨by norm_num, by norm_num, by norm_num⟩,
    scatterOrigin_distance 0 0 1 0 (1 / 2) (by norm_num) (by norm_num) (by norm_num)⟩

lemma map_processImage_filterMap (evs : List ImageLoadEvent) :
    (evs.map processImage).filterMap id =
      (evs.filter (·.succeeds)).map (·.img) := by
  induction evs with
  | nil => rfl
  | cons e t ih =>
    cases he : e.succeeds with
    | true => simp [processImage, he, ih]
    | false => simp [processImage, he, ih]

/-- C8: a single image's load failure is swallowed — `processImage` resolves
to `null` (modelled as `none`) and the result is filtered out, so the
surviving pool is exactly the images whose load succeeded; when every image
fails, the pass ends in the not-generating state with no placements and no
timeline. -/
theorem loadImages_failure_handling (cfg : MosaicCfg) (rand : ℕ → Attempt)
    (evs : List ImageLoadEvent) :
    (evs.map processImage).filterMap id =
      (evs.filter (·.succeeds)).map (·.img) ∧
    ((∀ e ∈ evs, e.succeeds = false) →
      loadImages cfg rand evs = GenerationResult.notGenerating) := by
  refine ⟨map_processImage_filterMap evs, ?_⟩
  intro h
  have h1 : evs.filter (·.succeeds) = [] := by
    apply List.filter_eq_nil_iff.mpr
    intro a ha
    simp [h a ha]
  simp only [loadImages, map_processImage_filterMap, h1]
  rfl

/-- C8 witness: a batch whose single image fails to load. -/
theorem loadImages_failure_handling_witness :
    (∀ e ∈ [({ img := imgW, succeeds := false } : ImageLoadEvent)],
      e.succeeds = false) ∧
    loadImages cfgW randW [{ img := imgW, succeeds := false }] =
      GenerationResult.notGenerating :=
  ⟨by decide,
    (loadImages_failure_handling cfgW randW [{ img := imgW, succeeds := false }]).2
      (by decide)⟩

/-- C9 (code bug): after the part_002 display component's effect cleanup has
torn the pass down at T = 1000 ms, a frame callback delivered at t = 1016 ms
still draws and re-requests the next frame — the cleanup pauses the audio
but never cancels the `requestAnimationFrame` chain, and the `animate`
callback consults no cancellation flag.  The canvas engine of part_005 shows
the intended behavior: after `destroy`, its frame callback draws nothing. -/
theorem animateFrame_draws_after_cleanup :
    (animateFrame (effectCleanup { isMounted := true, audioPlaying := true })
        0 1016).draws = true ∧
    (animateFrame (effectCleanup { isMounted := true, audioPlaying := true })
        0 1016).requestsNext = true ∧
    (canvasFrame (destroyController
        { isDestroyed := false, activeRafId := some 7, activeTimeoutId := none })
        1016).draws = false := by
  refine ⟨rfl, ?_, rfl⟩
  simp only [animateFrame, decide_eq_true_eq]
  norm_num [totalDuration, dotStart, oStart, iStart, jStart,
    letterAnimDuration, delayBetweenLetters, dotAnimDuration]

/-- Every placement emitted by the slot-filling walk sits on one of the
given slots (keeping its region) and, when the image list is non-empty,
draws its url from that list. -/
lemma mem_assignSlots {imgs : List MosaicImage} :
    ∀ slots idx p, p ∈ assignSlots imgs slots idx →
      (∃ slot ∈ slots, p.region = slot.region) ∧
      (imgs ≠ [] → ∃ img ∈ imgs, img.url = p.imageUrl) := by
  intro slots
  induction slots with
  | nil => intro idx p hp; cases hp
  | cons slot rest ih =>
    intro idx p hp
    simp only [assignSlots, List.mem_cons] at hp
    rcases hp with hp | hp
    · subst hp
      refine ⟨⟨slot, List.mem_cons_self _ _, rfl⟩, ?_⟩
      intro hne
      refine ⟨imgs.getD (idx % imgs.length) default, ?_, rfl⟩
      have hlen : idx % imgs.length < imgs.length :=
        Nat.mod_lt _ (List.length_pos.mpr hne)
      rw [List.getD_eq_getElem _ _ hlen]
      exact List.getElem_mem _
    · have h := ih (idx + 1) p hp
      exact ⟨h.1.imp (fun s hs => ⟨List.mem_cons_of_mem _ hs.1, hs.2⟩), h.2⟩

/-- C10: the grid engine places president images only into `I_DOT` slots and
non-president images only into non-`I_DOT` slots; with no president image
the `I_DOT` slots stay empty, and with no non-president image every
non-`I_DOT` slot stays empty (no placement outside `I_DOT` ever exists
then). -/
theorem generateMosaicLayout_regions (images : List MosaicImage) :
    (∀ p ∈ generateMosaicLayout images,
      (p.region = Region.IDot →
        ∃ img ∈ images, img.isPresident = true ∧ img.url = p.imageUrl) ∧
      (p.region ≠ Region.IDot →
        ∃ img ∈ images, img.isPresident = false ∧ img.url = p.imageUrl)) ∧
    (images.filter (·.isPresident) = [] →
      ∀ p ∈ generateMosaicLayout images, p.region ≠ Region.IDot) ∧
    (images.filter (fun i => !i.isPresident) = [] →
      ∀ p ∈ generateMosaicLayout images, p.region = Region.IDot) := by
  have hdotmem : ∀ p, p ∈ assignSlots (images.filter (·.isPresident))
      (mosaicGrid.filter (fun q => q.region = Region.IDot)) 0 →
      p.region = Region.IDot ∧
        (images.filter (·.isPresident) ≠ [] →
          ∃ img ∈ images, img.isPresident = true ∧ img.url = p.imageUrl) := by
    intro p hp
    have h := mem_assignSlots _ 0 p hp
    obtain ⟨⟨slot, hslot, hreg⟩, himg⟩ := h
    have hr : slot.region = Region.IDot := by
      have := List.of_mem_filter hslot
      simpa using this
    refine ⟨hreg.trans hr, fun hne => ?_⟩
    obtain ⟨img, himgs, hurl⟩ := himg hne
    have := List.mem_filter.mp himgs
    exact ⟨img, this.1, by simpa using this.2, hurl⟩
  have hothermem : ∀ p, p ∈ assignSlots (images.filter (fun i => !i.isPresident))
      (mosaicGrid.filter (fun q => q.region ≠ Region.IDot)) 0 →
      p.region ≠ Region.IDot ∧
        (images.filter (fun i => !i.isPresident) ≠ [] →
          ∃ img ∈ images, img.isPresident = false ∧ img.url = p.imageUrl) := by
    intro p hp
    have h := mem_assignSlots _ 0 p hp
    obtain ⟨⟨slot, hslot, hreg⟩, himg⟩ := h
    have hr : slot.region ≠ Region.IDot := by
      have := List.of_mem_filter hslot
      simpa using this
    refine ⟨hreg ▸ hr, fun hne => ?_⟩
    obtain ⟨img, himgs, hurl⟩ := himg hne
    have := List.mem_filter.mp himgs
    exact ⟨img, this.1, by simpa using this.2, hurl⟩
  refine ⟨?_, ?_, ?_⟩
  · intro p hp
    simp only [generateMosaicLayout, List.mem_append] at hp
    rcases hp with hp | hp
    · split at hp
      · have h := hdotmem p hp
        have hne : images.filter (·.isPresident) ≠ [] := by
          intro hnil
          rename_i hlen
          rw [hnil] at hlen
          simp at hlen
        exact ⟨fun _ => h.2 hne, fun hcon => absurd h.1 hcon⟩
      · cases hp
    · split at hp
      · have h := hothermem p hp
        have hne : images.filter (fun i => !i.isPresident) ≠ [] := by
          intro hnil
          rename_i hlen
          rw [hnil] at hlen
          simp at hlen
        exact ⟨fun hcon => absurd hcon h.1, fun _ => h.2 hne⟩
      · cases hp
  · intro hpres p hp
    simp only [generateMosaicLayout, List.mem_append] at hp
    rcases hp with hp | hp
    · split at hp
      · rename_i hlen
        rw [hpres] at hlen
        simp at hlen
      · cases hp
    · split at hp
      · exact (hothermem p hp).1
      · cases hp
  · intro hreg p hp
    simp only [generateMosaicLayout, List.mem_append] at hp
    rcases hp with hp | hp
    · split at hp
      · exact (hdotmem p hp).1
      · cases hp
    · split at hp
      · rename_i hlen
        rw [hreg] at hlen
        simp at hlen
      · cases hp

/-- C10 witness: one president and one regular image; the first `I_DOT` slot
receives the president image. -/
theorem generateMosaicLayout_regions_witness :
    ({ x := 6, y := 0, size := 1, imageUrl := 0, region := Region.IDot }
        : MosaicPlacement) ∈
      generateMosaicLayout
        [{ url := 0, isPresident := true }, { url := 1, isPresident := false }] ∧
    (∃ img ∈ ([{ url := 0, isPresident := true }, { url := 1, isPresident := false }]
        : List MosaicImage), img.isPresident = true ∧ img.url = 0) :=
  ⟨by decide,
    ((generateMosaicLayout_regions
        [{ url := 0, isPresident := true }, { url := 1, isPresident := false }]).1
      { x := 6, y := 0, size := 1, imageUrl := 0, region := Region.IDot }
      (by decide)).1 rfl⟩

end JioMosaic
